import Mathlib

/-!
Verification of the Letraz front-end data model and onboarding flow.

The developments below shallowly embed the zod validation schemas
(`ExperienceSchema`, `ExperienceMutationSchema`, `employmentTypes` from
`src/lib/experience/types.ts`), the onboarding form submit handlers
(`PersonalDetailsForm.onSubmit`, `EducationForm.onSubmit`,
`EducationForm.submitWithRedirect`, `ExperienceForm.onSubmit`), the waitlist
server action `signUpForWaitlist`, and the Discord announcement route `POST`.

JavaScript runtime values that the schemas inspect are modelled by the `Json`
inductive (with `undef` for JavaScript `undefined`, distinct from `null`).
JavaScript numbers are modelled by `Rat`, so that zod's `.int()` refinement is
the non-trivial check `q.den = 1`. Effectful handlers are modelled as pure
functions from their inputs (including the outcome of each awaited promise,
as an `Except`) to a result together with a list of observable `Effect`s.
-/

/-- A JavaScript value as seen by the zod validators: `undef` models the
JavaScript `undefined` (an absent object field), `num` carries a rational
because JavaScript numbers need not be integers. -/
inductive Json where
  | null
  | undef
  | bool (b : Bool)
  | num (q : Rat)
  | str (s : String)
  | obj (fields : List (String × Json))

/-- JavaScript property lookup on an object's field list: a missing key reads
as `undefined`. -/
def lookupField (fields : List (String × Json)) (k : String) : Json :=
  match fields.find? (fun p => p.1 == k) with
  | some p => p.2
  | none => Json.undef

/-- JavaScript property access `v.k`: throws (TypeError) on `null` and
`undefined`, reads `undefined` on other primitives, looks the key up on an
object. -/
def jsProp (v : Json) (k : String) : Except Unit Json :=
  match v with
  | Json.obj fs => Except.ok (lookupField fs k)
  | Json.null => Except.error ()
  | Json.undef => Except.error ()
  | _ => Except.ok Json.undef

/-- `z.string()`: accepts exactly strings. -/
def checkString (v : Json) : Bool :=
  match v with
  | Json.str _ => true
  | _ => false

/-- `z.string().max(n)`: a string of length at most `n`. -/
def checkStringMax (n : Nat) (v : Json) : Bool :=
  match v with
  | Json.str s => decide (s.length ≤ n)
  | _ => false

/-- `z.string().max(n).nullable().optional()`: `undefined`, `null`, or a
string of length at most `n`. -/
def checkOptStringMax (n : Nat) (v : Json) : Bool :=
  match v with
  | Json.undef => true
  | Json.null => true
  | Json.str s => decide (s.length ≤ n)
  | _ => false

/-- `z.boolean()`: accepts exactly booleans. -/
def checkBool (v : Json) : Bool :=
  match v with
  | Json.bool _ => true
  | _ => false

/-- A hexadecimal digit, either case. -/
def isHexDigit (c : Char) : Bool :=
  c.isDigit || (decide (Char.ofNat 97 ≤ c) && decide (c ≤ Char.ofNat 102)) ||
    (decide (Char.ofNat 65 ≤ c) && decide (c ≤ Char.ofNat 70))

/-- Split a character list at each dash (the character with code 45). -/
def splitOnDash (cs : List Char) : List (List Char) :=
  match cs with
  | [] => [[]]
  | c :: rest =>
      let r := splitOnDash rest
      if c == Char.ofNat 45 then [] :: r
      else
        match r with
        | g :: gs => (c :: g) :: gs
        | [] => [[c]]

/-- zod's `.uuid()` string format: five dash-separated groups of hex digits of
lengths 8, 4, 4, 4 and 12. -/
def isUuidString (s : String) : Bool :=
  let parts := splitOnDash s.toList
  parts.length == 5 &&
    (List.zip parts [8, 4, 4, 4, 12]).all
      (fun p => p.1.length == p.2 && p.1.all isHexDigit)

/-- `z.string().uuid()`. -/
def checkUuid (v : Json) : Bool :=
  match v with
  | Json.str s => isUuidString s
  | _ => false

/-- The regex `[A-Z]{3}` anchored at both ends (country codes). -/
def isCca3 (s : String) : Bool :=
  s.length == 3 &&
    s.toList.all (fun c => decide (Char.ofNat 65 ≤ c) && decide (c ≤ Char.ofNat 90))

/-- The nested `country` object of `ExperienceSchema`:
`z.object({code: z.string().regex(...), name: z.string()})`. -/
def checkCountryObj (v : Json) : Bool :=
  match v with
  | Json.obj fs =>
      (match lookupField fs "code" with
       | Json.str s => isCca3 s
       | _ => false) &&
      (match lookupField fs "name" with
       | Json.str _ => true
       | _ => false)
  | _ => false

/-- `z.number().int().min(lo).max(hi).nullable().optional()`: `undefined`,
`null`, or an integer-valued number between `lo` and `hi`. -/
def checkOptIntBetween (lo hi : Int) (v : Json) : Bool :=
  match v with
  | Json.undef => true
  | Json.null => true
  | Json.num q => q.den == 1 && decide (lo ≤ q.num) && decide (q.num ≤ hi)
  | _ => false

/-- The field values supplied to `ExperienceSchema.parse`, one `Json` value
per declared key (a missing key is `Json.undef`). -/
structure ExperienceInput where
  id : Json
  user : Json
  resume_section : Json
  company_name : Json
  job_title : Json
  country : Json
  city : Json
  employment_type : Json
  started_from_month : Json
  started_from_year : Json
  finished_at_month : Json
  finished_at_year : Json
  current : Json
  description : Json

/-- The validator declared by `ExperienceSchema` in
`src/lib/experience/types.ts`: the conjunction of every field's zod check.
`currentYear` stands for `new Date().getFullYear()`, evaluated when the schema
object is built. -/
def ExperienceSchema (currentYear : Int) (e : ExperienceInput) : Bool :=
  checkUuid e.id &&
  checkString e.user &&
  checkUuid e.resume_section &&
  checkStringMax 250 e.company_name &&
  checkStringMax 250 e.job_title &&
  checkCountryObj e.country &&
  checkOptStringMax 50 e.city &&
  checkString e.employment_type &&
  checkOptIntBetween 1 12 e.started_from_month &&
  checkOptIntBetween 1947 currentYear e.started_from_year &&
  checkOptIntBetween 1 12 e.finished_at_month &&
  checkOptIntBetween 1947 currentYear e.finished_at_year &&
  checkBool e.current &&
  checkOptStringMax 3000 e.description

/-- The specification's reading of a date-part field: the value is absent,
null, or an integer between `lo` and `hi`. Stated over `Int` so that it is
independent of the `Rat` encoding used by the validator. -/
def IsBoundedIntDatePart (lo hi : Int) (v : Json) : Prop :=
  v = Json.undef ∨ v = Json.null ∨
    ∃ k : Int, v = Json.num (k : Rat) ∧ lo ≤ k ∧ k ≤ hi

theorem checkOptIntBetween_iff (lo hi : Int) (v : Json) :
    checkOptIntBetween lo hi v = true ↔ IsBoundedIntDatePart lo hi v := by
  cases v with
  | undef => simp [checkOptIntBetween, IsBoundedIntDatePart]
  | null => simp [checkOptIntBetween, IsBoundedIntDatePart]
  | bool b => simp [checkOptIntBetween, IsBoundedIntDatePart]
  | str s => simp [checkOptIntBetween, IsBoundedIntDatePart]
  | obj fs => simp [checkOptIntBetween, IsBoundedIntDatePart]
  | num q =>
      simp only [checkOptIntBetween, IsBoundedIntDatePart, Bool.and_eq_true,
        beq_iff_eq, decide_eq_true_eq]
      constructor
      · rintro ⟨⟨hden, hlo⟩, hhi⟩
        refine Or.inr (Or.inr ⟨q.num, ?_, hlo, hhi⟩)
        rw [(Rat.den_eq_one_iff q).mp hden]
      · rintro (h | h | ⟨k, hk, hlo, hhi⟩)
        · exact absurd h (by simp)
        · exact absurd h (by simp)
        · obtain rfl : q = (k : Rat) := Json.num.inj hk
          simpa using ⟨hlo, hhi⟩

/-- Claim C1: every record accepted by `ExperienceSchema` has
`started_from_month` and `finished_at_month` equal to integers in [1, 12]
(or null/absent) and `started_from_year` and `finished_at_year` equal to
integers in [1947, currentYear] (or null/absent). Contrapositively, any input
whose date-part field falls outside these bounds (or is a non-integer number,
or a value of another type) is rejected by the schema. -/
theorem experience_schema_date_bounds (currentYear : Int) (e : ExperienceInput)
    (h : ExperienceSchema currentYear e = true) :
    IsBoundedIntDatePart 1 12 e.started_from_month ∧
    IsBoundedIntDatePart 1947 currentYear e.started_from_year ∧
    IsBoundedIntDatePart 1 12 e.finished_at_month ∧
    IsBoundedIntDatePart 1947 currentYear e.finished_at_year := by
  simp only [ExperienceSchema, Bool.and_eq_true] at h
  obtain ⟨⟨⟨⟨⟨⟨⟨⟨⟨⟨⟨⟨⟨h1, h2⟩, h3⟩, h4⟩, h5⟩, h6⟩, h7⟩, h8⟩, h9⟩, h10⟩,
    h11⟩, h12⟩, h13⟩, h14⟩ := h
  exact ⟨(checkOptIntBetween_iff 1 12 _).mp h9,
    (checkOptIntBetween_iff 1947 currentYear _).mp h10,
    (checkOptIntBetween_iff 1 12 _).mp h11,
    (checkOptIntBetween_iff 1947 currentYear _).mp h12⟩

/-- A concrete record accepted by `ExperienceSchema` with the schema frozen
in the year 2025. -/
def wExp : ExperienceInput :=
  { id := Json.str "123e4567-e89b-12d3-a456-426614174000"
    user := Json.str "user_1"
    resume_section := Json.str "123e4567-e89b-12d3-a456-426614174001"
    company_name := Json.str "Acme"
    job_title := Json.str "Engineer"
    country := Json.obj [("code", Json.str "USA"), ("name", Json.str "United States")]
    city := Json.null
    employment_type := Json.str "flt"
    started_from_month := Json.num 5
    started_from_year := Json.num 2020
    finished_at_month := Json.null
    finished_at_year := Json.undef
    current := Json.bool true
    description := Json.null }

/-- Witness for `experience_schema_date_bounds` at the concrete accepted
record `wExp`. -/
theorem experience_schema_date_bounds_witness :
    ExperienceSchema 2025 wExp = true ∧
    (IsBoundedIntDatePart 1 12 wExp.started_from_month ∧
     IsBoundedIntDatePart 1947 2025 wExp.started_from_year ∧
     IsBoundedIntDatePart 1 12 wExp.finished_at_month ∧
     IsBoundedIntDatePart 1947 2025 wExp.finished_at_year) :=
  ⟨by decide, experience_schema_date_bounds 2025 wExp (by decide)⟩

/-- `z.string().nullish()` (`nullable().optional()`): `undefined`, `null`, or
any string, with no further constraint. -/
def checkNullishString (v : Json) : Bool :=
  match v with
  | Json.undef => true
  | Json.null => true
  | Json.str _ => true
  | _ => false

/-- The `z.enum([...])` check on `employment_type` in
`ExperienceMutationSchema`: exactly one of the eight employment codes. -/
def checkEmploymentEnum (v : Json) : Bool :=
  match v with
  | Json.str s =>
      (["flt", "prt", "con", "int", "fre", "sel", "vol", "tra"] : List String).contains s
  | _ => false

/-- `z.string().regex([A-Z]{3})` — the `country` field of
`ExperienceMutationSchema` is a bare CCA3 string, not the nested object. -/
def checkCca3String (v : Json) : Bool :=
  match v with
  | Json.str s => isCca3 s
  | _ => false

/-- The field values supplied to `ExperienceMutationSchema.parse`: the base
schema minus the omitted read-only keys, plus the `.extend`ed keys. -/
structure ExperienceMutationInput where
  company_name : Json
  job_title : Json
  country : Json
  city : Json
  employment_type : Json
  started_from_month : Json
  started_from_year : Json
  finished_at_month : Json
  finished_at_year : Json
  current : Json
  description : Json

/-- The validator declared by `ExperienceMutationSchema` in
`src/lib/experience/types.ts`: `ExperienceSchema.omit({id, user,
resume_section, employment_type, country, started_from_month,
started_from_year, finished_at_month, finished_at_year, created_at,
updated_at}).extend({...})`. The four date-part fields are re-declared as
`z.string().nullish()`. -/
def ExperienceMutationSchema (e : ExperienceMutationInput) : Bool :=
  checkStringMax 250 e.company_name &&
  checkStringMax 250 e.job_title &&
  checkOptStringMax 50 e.city &&
  checkBool e.current &&
  checkOptStringMax 3000 e.description &&
  checkEmploymentEnum e.employment_type &&
  checkCca3String e.country &&
  checkNullishString e.started_from_month &&
  checkNullishString e.started_from_year &&
  checkNullishString e.finished_at_month &&
  checkNullishString e.finished_at_year

/-- The spec-side reading of a `nullish` string field: absent, null, or some
string. -/
def IsNullishString (v : Json) : Prop :=
  v = Json.undef ∨ v = Json.null ∨ ∃ s : String, v = Json.str s

/-- A concrete input accepted by `ExperienceMutationSchema` whose
`started_from_month` is the string "banana". -/
def cMut : ExperienceMutationInput :=
  { company_name := Json.str "Acme"
    job_title := Json.str "Engineer"
    country := Json.str "USA"
    city := Json.null
    employment_type := Json.str "flt"
    started_from_month := Json.str "banana"
    started_from_year := Json.null
    finished_at_month := Json.undef
    finished_at_year := Json.undef
    current := Json.bool false
    description := Json.null }

/-- Claim C2 counterexample: `ExperienceMutationSchema` accepts a record whose
`started_from_month` is the string "banana", which is not an integer in
[1, 12]; the mutation schema therefore does not constrain the date-part
fields as bounded integers. -/
theorem experience_mutation_accepts_non_int_month :
    ExperienceMutationSchema cMut = true ∧
    cMut.started_from_month = Json.str "banana" ∧
    ¬ IsBoundedIntDatePart 1 12 (Json.str "banana") := by
  refine ⟨by decide, rfl, ?_⟩
  rintro (h | h | ⟨k, hk, _, _⟩)
  · exact Json.noConfusion h
  · exact Json.noConfusion h
  · exact Json.noConfusion hk

theorem checkNullishString_iff (v : Json) :
    checkNullishString v = true ↔ IsNullishString v := by
  cases v <;> simp [checkNullishString, IsNullishString]

/-- Claim C2 as amended: `ExperienceSchema` validates the start/finish month
and year fields as bounded date-part integers
(`experience_schema_date_bounds`), but `ExperienceMutationSchema` re-declares
them as `z.string().nullish()`: every record it accepts has each date-part
field absent, null, or an arbitrary string, with no integer or range
constraint. -/
theorem experience_mutation_dates_are_nullish_strings
    (e : ExperienceMutationInput) (h : ExperienceMutationSchema e = true) :
    IsNullishString e.started_from_month ∧
    IsNullishString e.started_from_year ∧
    IsNullishString e.finished_at_month ∧
    IsNullishString e.finished_at_year := by
  simp only [ExperienceMutationSchema, Bool.and_eq_true] at h
  obtain ⟨⟨⟨⟨⟨⟨⟨⟨⟨⟨h1, h2⟩, h3⟩, h4⟩, h5⟩, h6⟩, h7⟩, h8⟩, h9⟩, h10⟩, h11⟩ := h
  exact ⟨(checkNullishString_iff _).mp h8, (checkNullishString_iff _).mp h9,
    (checkNullishString_iff _).mp h10, (checkNullishString_iff _).mp h11⟩

/-- Witness for `experience_mutation_dates_are_nullish_strings` at the
concrete accepted record `cMut`. -/
theorem experience_mutation_dates_are_nullish_strings_witness :
    ExperienceMutationSchema cMut = true ∧
    (IsNullishString cMut.started_from_month ∧
     IsNullishString cMut.started_from_year ∧
     IsNullishString cMut.finished_at_month ∧
     IsNullishString cMut.finished_at_year) :=
  ⟨by decide, experience_mutation_dates_are_nullish_strings cMut (by decide)⟩

/-- One entry of the `employmentTypes` constant: a display label and the
schema code it stands for. -/
structure EmploymentTypeOption where
  label : String
  value : String

/-- The `employmentTypes` constant of `src/lib/experience/types.ts`. -/
def employmentTypes : List EmploymentTypeOption :=
  [⟨"Full-time", "flt"⟩,
   ⟨"Part-time", "prt"⟩,
   ⟨"Contract", "con"⟩,
   ⟨"Internship", "int"⟩,
   ⟨"Freelance", "fre"⟩,
   ⟨"Self-employed", "sel"⟩,
   ⟨"Volunteer", "vol"⟩,
   ⟨"Trainee", "tra"⟩]

/-- Claim C8: the `employment_type` check of `ExperienceMutationSchema`
accepts a value exactly when it is one of the eight code strings, and the
`employmentTypes` list enumerates exactly these eight codes, in order. -/
theorem employment_type_enum_exact :
    (∀ v : Json, checkEmploymentEnum v = true ↔
      ∃ s : String, v = Json.str s ∧
        s ∈ (["flt", "prt", "con", "int", "fre", "sel", "vol", "tra"] : List String)) ∧
    employmentTypes.map EmploymentTypeOption.value =
      ["flt", "prt", "con", "int", "fre", "sel", "vol", "tra"] := by
  constructor
  · intro v
    cases v <;> simp [checkEmploymentEnum, List.elem_iff]
  · rfl

/-- The user-visible outcome of an onboarding submit handler: the route passed
to `router.push` (if any) and the message passed to `toast.error` (if any). -/
structure StepEffect where
  navigatedTo : Option String
  toastMsg : Option String
deriving DecidableEq

/-- `PersonalDetailsForm.onSubmit` from
`src/components/onboarding/PersonalDetailsForm.tsx`, as a function of the
outcome of the awaited `addOrUpdateUserInfoToDB` call: on resolution it pushes
the education step, on rejection it shows the error toast. -/
def personalDetailsOnSubmit (saveResult : Except Unit Unit) : StepEffect :=
  match saveResult with
  | Except.ok _ =>
      { navigatedTo := some "/app/onboarding?step=education", toastMsg := none }
  | Except.error _ =>
      { navigatedTo := none,
        toastMsg := some "Failed to update information, please try again" }

/-- The state of `EducationForm` after `onSubmit` runs: the list passed to
`setEducations` (unchanged if it was never called), whether `form.reset()`
ran, and the toast message (if any). `Ed` is the `Education` record type of
`@/lib/education.methods`, which the handler treats as opaque. -/
structure EducationSubmitResult (Ed : Type) where
  educations : List Ed
  didReset : Bool
  toastMsg : Option String

/-- `EducationForm.onSubmit`: `insertResult` is the outcome of the awaited
`insertEducation` call — `Except.error` if it rejected, `Except.ok none` if it
resolved with a falsy value (the `if (newEducation)` guard then throws into
the same catch), `Except.ok (some e)` if it resolved with a record. Only the
success branch extends the list and resets the form; both failure modes land
in the catch and show the error toast. -/
def educationOnSubmit {Ed : Type} (educations : List Ed)
    (insertResult : Except Unit (Option Ed)) : EducationSubmitResult Ed :=
  match insertResult with
  | Except.ok (some newEducation) =>
      { educations := educations ++ [newEducation], didReset := true,
        toastMsg := none }
  | Except.ok none =>
      { educations := educations, didReset := false,
        toastMsg := some "Failed to add education, please try again" }
  | Except.error _ =>
      { educations := educations, didReset := false,
        toastMsg := some "Failed to add education, please try again" }

/-- `EducationForm.submitWithRedirect`: when the form is dirty the insert is
awaited first, and `router.push` runs only if it resolved; when the form is
not dirty the insert is skipped and the push runs directly. A rejection is
caught and shows the error toast. -/
def educationSubmitWithRedirect {Ed : Type} (isDirty : Bool)
    (insertResult : Except Unit (Option Ed)) : StepEffect :=
  if isDirty then
    match insertResult with
    | Except.ok _ =>
        { navigatedTo := some "/app/onboarding?step=experience", toastMsg := none }
    | Except.error _ =>
        { navigatedTo := none,
          toastMsg := some "Failed to update education, please try again" }
  else
    { navigatedTo := some "/app/onboarding?step=experience", toastMsg := none }

/-- Claim C3: a successful submission moves the wizard to the expected next
step — `PersonalDetailsForm.onSubmit` pushes `/app/onboarding?step=education`
whenever `addOrUpdateUserInfoToDB` resolves, and
`EducationForm.submitWithRedirect` pushes `/app/onboarding?step=experience`
whenever its insert (performed only when the form is dirty) resolves. -/
theorem onboarding_submit_navigates_next_step (Ed : Type)
    (r : Option Ed) (r' : Except Unit (Option Ed)) :
    (personalDetailsOnSubmit (Except.ok ())).navigatedTo =
      some "/app/onboarding?step=education" ∧
    (educationSubmitWithRedirect true (Except.ok r)).navigatedTo =
      some "/app/onboarding?step=experience" ∧
    (educationSubmitWithRedirect false r').navigatedTo =
      some "/app/onboarding?step=experience" := by
  refine ⟨rfl, rfl, ?_⟩
  simp [educationSubmitWithRedirect]

/-- Claim C5: on both error paths of `EducationForm.onSubmit` (the insert
rejects, or resolves falsy) the educations list is unchanged, the form is not
reset, and the error toast is shown; the list is extended (by exactly the new
record, at the end) only on the success path, which shows no toast. -/
theorem education_onSubmit_error_path_frame (Ed : Type)
    (educations : List Ed) (e : Ed) :
    ((educationOnSubmit educations (Except.error ())).educations = educations ∧
     (educationOnSubmit educations (Except.error ())).didReset = false ∧
     (educationOnSubmit educations (Except.error ())).toastMsg =
       some "Failed to add education, please try again") ∧
    ((educationOnSubmit educations (Except.ok none)).educations = educations ∧
     (educationOnSubmit educations (Except.ok none)).didReset = false ∧
     (educationOnSubmit educations (Except.ok none)).toastMsg =
       some "Failed to add education, please try again") ∧
    ((educationOnSubmit educations (Except.ok (some e))).educations =
       educations ++ [e] ∧
     (educationOnSubmit educations (Except.ok (some e))).didReset = true ∧
     (educationOnSubmit educations (Except.ok (some e))).toastMsg = none) :=
  ⟨⟨rfl, rfl, rfl⟩, ⟨rfl, rfl, rfl⟩, ⟨rfl, rfl, rfl⟩⟩

/-- The values of `experienceFormSchema` (the onboarding experience form):
every field is optional — `Option.none` models an omitted field. -/
structure ExperienceFormValues where
  companyName : Option String
  country : Option String
  jobTitle : Option String
  city : Option String
  startedFromMonth : Option String
  startedFromYear : Option String
  finishedAtMonth : Option String
  finishedAtYear : Option String
  current : Option Bool
  description : Option String

/-- The state of `ExperienceForm` after `onSubmit` runs: the list passed to
`setExperiences` and whether `form.reset()` ran. -/
structure ExperienceSubmitResult where
  experiences : List ExperienceFormValues
  didReset : Bool

/-- `ExperienceForm.onSubmit`: `setExperiences([...experiences, values])`
followed by `form.reset()`. -/
def experienceOnSubmit (experiences : List ExperienceFormValues)
    (values : ExperienceFormValues) : ExperienceSubmitResult :=
  { experiences := experiences ++ [values], didReset := true }

/-- Claim C7: after `ExperienceForm.onSubmit`, the list holds every previously
present entry unchanged at its old position, has grown by exactly one entry,
and the submitted values sit at the end. -/
theorem experience_onSubmit_appends_exactly_one
    (experiences : List ExperienceFormValues) (values : ExperienceFormValues) :
    (experienceOnSubmit experiences values).experiences.length =
      experiences.length + 1 ∧
    (∀ i : Fin experiences.length,
      (experienceOnSubmit experiences values).experiences[i.val]? =
        experiences[i.val]?) ∧
    (experienceOnSubmit experiences values).experiences[experiences.length]? =
      some values := by
  refine ⟨by simp [experienceOnSubmit], ?_, ?_⟩
  · intro i
    exact List.getElem?_append_left i.isLt
  · exact List.getElem?_concat_length experiences values

/-- An observable side effect of one of the server operations or handlers:
a console log, an outgoing POST, a transactional email, or a toast. -/
inductive Effect where
  | consoleLog (v : Json)
  | fetchPost (url : String)
  | emailSend (toAddr : String)
  | toastShown (msg : String)

/-- Is the effect a toast? -/
def isToastEffect (e : Effect) : Bool :=
  match e with
  | Effect.toastShown _ => true
  | _ => false

/-- Is the effect an outgoing POST? -/
def isFetchEffect (e : Effect) : Bool :=
  match e with
  | Effect.fetchPost _ => true
  | _ => false

/-- Is the effect a transactional email? -/
def isEmailEffect (e : Effect) : Bool :=
  match e with
  | Effect.emailSend _ => true
  | _ => false

/-- The record produced by `WaitlistMutationSchema.parse`. -/
structure WaitlistMutation where
  email : String
  referrer : Option String
deriving DecidableEq

/-- The argument object `{email, referrer}` built by `signUpForWaitlist`. -/
def waitlistArgs (email : String) (referrer : Json) : Json :=
  Json.obj [("email", Json.str email), ("referrer", referrer)]

/-- A fetch response as observed by `signUpForWaitlist`: its `ok` flag and the
value its `.json()` resolves to. -/
structure FetchResponse where
  ok : Bool
  body : Json

/-- `signUpForWaitlist` from the waitlist server action, as a function of the
schema's parse function, the API URL, the arguments, and the fetch response.
It returns the action's outcome (`Except.error` models a thrown exception)
together with the list of observable effects, in order. On a non-ok response
it logs, reads `data.error.details` (JavaScript property access, which throws
if `data.error` is null/undefined), and returns the parsed input `params`; on
an ok response it sends the welcome email and returns the parse of the
response body. -/
def signUpForWaitlist (parse : Json → Except Unit WaitlistMutation)
    (apiUrl : String) (email : String) (referrer : Json)
    (response : FetchResponse) : Except Unit WaitlistMutation × List Effect :=
  match parse (waitlistArgs email referrer) with
  | Except.error e => (Except.error e, [])
  | Except.ok params =>
      let fetchEff := Effect.fetchPost (apiUrl ++ "/waitlist/")
      if response.ok then
        let emailEff := Effect.emailSend params.email
        match parse response.body with
        | Except.error e => (Except.error e, [fetchEff, emailEff])
        | Except.ok result => (Except.ok result, [fetchEff, emailEff])
      else
        let log1 := Effect.consoleLog (Json.str "DUPLICATE ENTRY")
        match jsProp response.body "error" with
        | Except.error e => (Except.error e, [fetchEff, log1])
        | Except.ok errField =>
            match jsProp errField "details" with
            | Except.error e => (Except.error e, [fetchEff, log1])
            | Except.ok details =>
                (Except.ok params, [fetchEff, log1, Effect.consoleLog details])

/-- Modelled from the spec: `WaitlistMutationSchema` lives in
`src/lib/waitlist/types.ts`, which is not part of the source tree; the spec
describes the waitlist boundary only as a schema-validated signup record, so
its parse is modelled as requiring a string `email` field with an optional
(absent, null or string) `referrer` field. -/
def parseWaitlistMutation (v : Json) : Except Unit WaitlistMutation :=
  match v with
  | Json.obj fs =>
      match lookupField fs "email", lookupField fs "referrer" with
      | Json.str e, Json.undef => Except.ok ⟨e, none⟩
      | Json.str e, Json.null => Except.ok ⟨e, none⟩
      | Json.str e, Json.str r => Except.ok ⟨e, some r⟩
      | _, _ => Except.error ()
  | _ => Except.error ()

/-- A blog post as consumed by the Discord announcement route. -/
structure BlogPost where
  feature_image : Json
  title : String
  html : String

/-- The JSON payload a route handler responds with. -/
structure RouteResponse where
  message : String
deriving DecidableEq

/-- The `POST` handler of the Discord announcement route
(`app/api/…/route`), as a function of the outcomes of `getPosts()` and of the
outgoing fetch. The whole body sits in a `try` whose `catch` answers
`{message: 'Failed'}`; reading the first post of an empty list yields
`undefined`, so the subsequent property accesses throw into the catch. The
fetch response itself is never inspected — only a rejected fetch reaches the
catch. No toast exists in a route handler. -/
def discordAnnouncePOST (discordBlogUrl : String)
    (postsResult : Except Unit (List BlogPost))
    (fetchResult : Except Unit Unit) : RouteResponse × List Effect :=
  match postsResult with
  | Except.error _ => (⟨"Failed"⟩, [])
  | Except.ok posts =>
      match posts.head? with
      | none => (⟨"Failed"⟩, [])
      | some _ =>
          let fetchEff := Effect.fetchPost (discordBlogUrl ++ "/main/announcement")
          match fetchResult with
          | Except.error _ => (⟨"Failed"⟩, [fetchEff])
          | Except.ok _ => (⟨"Success"⟩, [fetchEff])

/-- The duplicate-entry error body the waitlist API answers with. -/
def dupBody : Json :=
  Json.obj [("error", Json.obj [("details", Json.str "duplicate entry")])]

/-- A concrete blog post for the Discord announcement route. -/
def cPost : BlogPost :=
  { feature_image := Json.str "banner.png", title := "Release notes",
    html := "<p>hello</p>" }

/-- Claim C4 counterexample: neither of the two named failure paths surfaces
a toast. A failed (non-ok) waitlist signup POST produces only a fetch and two
console logs, and a failed Discord announcement POST answers
`{message: 'Failed'}` with no toast at all. -/
theorem waitlist_and_discord_failures_show_no_toast :
    ((signUpForWaitlist parseWaitlistMutation "https://api.letraz.app" "a@b.c"
        Json.undef ⟨false, dupBody⟩).2.filter isToastEffect = [] ∧
     (signUpForWaitlist parseWaitlistMutation "https://api.letraz.app" "a@b.c"
        Json.undef ⟨false, dupBody⟩).1 = Except.ok ⟨"a@b.c", none⟩) ∧
    ((discordAnnouncePOST "https://bot.letraz.app" (Except.ok [cPost])
        (Except.error ())).2.filter isToastEffect = [] ∧
     (discordAnnouncePOST "https://bot.letraz.app" (Except.ok [cPost])
        (Except.error ())).1 = ⟨"Failed"⟩) :=
  ⟨⟨rfl, rfl⟩, ⟨rfl, rfl⟩⟩

/-- Claim C4 as amended: the toast-on-failure pattern holds for the
onboarding form submissions (a rejected insert or profile update shows an
error toast), but not for every operation: a failed waitlist signup POST and
a failed Discord announcement POST produce no toast (the first logs to the
console, the second answers a JSON failure message). None of these paths
retries: the waitlist action and the announcement route each issue exactly
one POST. -/
theorem failure_reporting_amended (Ed : Type) (educations : List Ed)
    (apiUrl discordUrl email : String) (body : Json) (post : BlogPost) :
    (educationOnSubmit educations
        (Except.error () : Except Unit (Option Ed))).toastMsg =
      some "Failed to add education, please try again" ∧
    (personalDetailsOnSubmit (Except.error ())).toastMsg =
      some "Failed to update information, please try again" ∧
    (signUpForWaitlist parseWaitlistMutation apiUrl email Json.undef
        ⟨false, body⟩).2.filter isToastEffect = [] ∧
    (signUpForWaitlist parseWaitlistMutation apiUrl email Json.undef
        ⟨false, body⟩).2.countP isFetchEffect = 1 ∧
    (discordAnnouncePOST discordUrl (Except.ok [post])
        (Except.error ())).2.filter isToastEffect = [] ∧
    (discordAnnouncePOST discordUrl (Except.ok [post])
        (Except.error ())).2.countP isFetchEffect = 1 := by
  have hp : parseWaitlistMutation (waitlistArgs email Json.undef) =
      Except.ok ⟨email, none⟩ := rfl
  refine ⟨rfl, rfl, ?_, ?_, rfl, rfl⟩ <;>
  · cases hE : jsProp body "error" with
    | error e => simp [signUpForWaitlist, hp, hE, isToastEffect, isFetchEffect]
    | ok errField =>
        cases hD : jsProp errField "details" with
        | error e =>
            simp [signUpForWaitlist, hp, hE, hD, isToastEffect, isFetchEffect]
        | ok d =>
            simp [signUpForWaitlist, hp, hE, hD, isToastEffect, isFetchEffect]

/-- Claim C6 counterexample: the parsed input parameters for the email
"a@b.c" exist, yet on a non-ok response whose body is an object without an
`error` field the action throws while reading `data.error.details` instead of
returning them — so a non-ok response does not always yield the parsed input
parameters. No welcome email is sent on that path either way. -/
theorem waitlist_nonok_missing_error_field_throws :
    parseWaitlistMutation (waitlistArgs "a@b.c" Json.undef) =
      Except.ok ⟨"a@b.c", none⟩ ∧
    (signUpForWaitlist parseWaitlistMutation "https://api.letraz.app" "a@b.c"
        Json.undef ⟨false, Json.obj []⟩).1 = Except.error () ∧
    (signUpForWaitlist parseWaitlistMutation "https://api.letraz.app" "a@b.c"
        Json.undef ⟨false, Json.obj []⟩).2.filter isEmailEffect = [] :=
  ⟨rfl, rfl, rfl⟩

/-- Claim C6 as amended: assuming the input parses, a non-ok response whose
body carries an `error` object with readable `details` makes
`signUpForWaitlist` return the parsed input parameters — a value of the same
shape as a successful result — and send no welcome email; a non-ok response
whose body lacks that shape makes the action throw, still sending no email;
the welcome email is sent, and the parsed response body returned, exactly
when the response is ok. -/
theorem waitlist_signup_result_amended
    (parse : Json → Except Unit WaitlistMutation) (apiUrl email : String)
    (referrer : Json) (params : WaitlistMutation) (b1 b2 b3 errv d : Json)
    (h1 : parse (waitlistArgs email referrer) = Except.ok params)
    (h2 : jsProp b1 "error" = Except.ok errv)
    (h3 : jsProp errv "details" = Except.ok d) :
    (signUpForWaitlist parse apiUrl email referrer ⟨false, b1⟩).1 =
      Except.ok params ∧
    (signUpForWaitlist parse apiUrl email referrer ⟨false, b3⟩).2.filter
      isEmailEffect = [] ∧
    (signUpForWaitlist parse apiUrl email referrer ⟨true, b2⟩).1 = parse b2 ∧
    (signUpForWaitlist parse apiUrl email referrer ⟨true, b2⟩).2.filter
      isEmailEffect = [Effect.emailSend params.email] := by
  refine ⟨?_, ?_, ?_, ?_⟩
  · simp [signUpForWaitlist, h1, h2, h3]
  · cases hE : jsProp b3 "error" with
    | error e => simp [signUpForWaitlist, h1, hE, isEmailEffect]
    | ok errField =>
        cases hD : jsProp errField "details" with
        | error e => simp [signUpForWaitlist, h1, hE, hD, isEmailEffect]
        | ok dd => simp [signUpForWaitlist, h1, hE, hD, isEmailEffect]
  · cases hp2 : parse b2 with
    | error e => simp [signUpForWaitlist, h1, hp2]
    | ok r => simp [signUpForWaitlist, h1, hp2]
  · cases hp2 : parse b2 with
    | error e => simp [signUpForWaitlist, h1, hp2, isEmailEffect]
    | ok r => simp [signUpForWaitlist, h1, hp2, isEmailEffect]

/-- Witness for `waitlist_signup_result_amended` at concrete inputs: the
duplicate-entry body on the non-ok side and an echo body on the ok side. -/
theorem waitlist_signup_result_amended_witness :
    (parseWaitlistMutation (waitlistArgs "a@b.c" Json.undef) =
      Except.ok ⟨"a@b.c", none⟩ ∧
     jsProp dupBody "error" =
      Except.ok (Json.obj [("details", Json.str "duplicate entry")]) ∧
     jsProp (Json.obj [("details", Json.str "duplicate entry")]) "details" =
      Except.ok (Json.str "duplicate entry")) ∧
    ((signUpForWaitlist parseWaitlistMutation "https://api.letraz.app" "a@b.c"
        Json.undef ⟨false, dupBody⟩).1 = Except.ok ⟨"a@b.c", none⟩ ∧
     (signUpForWaitlist parseWaitlistMutation "https://api.letraz.app" "a@b.c"
        Json.undef ⟨false, Json.obj []⟩).2.filter isEmailEffect = [] ∧
     (signUpForWaitlist parseWaitlistMutation "https://api.letraz.app" "a@b.c"
        Json.undef ⟨true, waitlistArgs "a@b.c" Json.undef⟩).1 =
       parseWaitlistMutation (waitlistArgs "a@b.c" Json.undef) ∧
     (signUpForWaitlist parseWaitlistMutation "https://api.letraz.app" "a@b.c"
        Json.undef ⟨true, waitlistArgs "a@b.c" Json.undef⟩).2.filter
       isEmailEffect =
       [Effect.emailSend (WaitlistMutation.email ⟨"a@b.c", none⟩)]) :=
  ⟨⟨rfl, rfl, rfl⟩,
   waitlist_signup_result_amended parseWaitlistMutation "https://api.letraz.app"
     "a@b.c" Json.undef ⟨"a@b.c", none⟩ dupBody
     (waitlistArgs "a@b.c" Json.undef) (Json.obj [])
     (Json.obj [("details", Json.str "duplicate entry")])
     (Json.str "duplicate entry") rfl rfl rfl⟩
